import Mathlib

/-!
Verification of the cloudflare-session-operator core: the Cloudflare edge
client (`pkg/cloudflare/client.go`), the pod-name sanitizer, and the
SessionBinding reconciler.  The edge client is embedded directly from the
Go source; the sanitizer and reconciler, whose implementations are not in
the source tree (only their tests are), are modelled from the repository
specification and cross-checked against the expected values in the tests.
-/

/-! ## Edge client data model (from pkg/cloudflare/client.go) -/

/-- Configuration fields of the Go `APIClient` struct (the HTTP client and
logger carry no behaviour relevant here). -/
structure APIClient where
  BaseURL : String
  AccountID : String
  APIToken : String
  KVNamespaceID : String
deriving DecidableEq

/-- A single error of the Cloudflare response envelope (`cfAPIError`). -/
structure cfAPIError where
  code : Int
  message : String
deriving DecidableEq

/-- The Cloudflare response envelope (`cfAPIResponse`); the `messages` and
`result` fields are never consulted by the client and are omitted. -/
structure cfAPIResponse where
  success : Bool
  errors : List cfAPIError
deriving DecidableEq

/-- An HTTP response as the client observes it: the status code, the raw
body bytes (as a string), and the result of attempting to JSON-parse the
body into the envelope (`none` models an unparseable body). -/
structure HTTPResponse where
  statusCode : Nat
  rawBody : String
  parsed : Option cfAPIResponse
deriving DecidableEq

/-- The JSON value written by `EnsureRoute` (the only request body the
client ever sends). -/
structure RouteValue where
  endpoint : String
  sessionID : String
  updatedAt : String
deriving DecidableEq

/-- An outgoing HTTP request as built in `doWithRetry`. -/
structure HTTPRequest where
  method : String
  url : String
  headers : List (String × String)
  body : Option RouteValue
deriving DecidableEq

/-- Outcome of one network attempt: a transport-level error from
`HTTPClient.Do`, or a response. -/
inductive AttemptOutcome where
  | transportErr
  | response (r : HTTPResponse)
deriving DecidableEq

/-- The last observed failure recorded in `lastErr` of `doWithRetry`. -/
inductive LastFailure where
  | transport
  | httpStatus (code : Nat)
deriving DecidableEq

/-- Errors `doWithRetry` itself can return: the context's error during a
backoff wait, or exhaustion of the retry budget wrapping the last failure. -/
inductive RetryError where
  | ctxCancelled
  | exhausted (last : Option LastFailure)
deriving DecidableEq

/-- Result of `doWithRetry` together with an execution trace: the number of
HTTP attempts actually performed and the backoff waits (in milliseconds)
fully slept through. -/
structure RetryTrace where
  result : Except RetryError HTTPResponse
  attempts : Nat
  waits : List Nat

/-- `maxRetries` constant from the source. -/
def maxRetries : Nat := 3

/-- `retryBaseDelay` constant from the source, in milliseconds. -/
def retryBaseDelayMs : Nat := 500

/-- The backoff delay slept before retry `attempt` (Go:
`retryBaseDelay * time.Duration(1<<(attempt-1))`). -/
def retryDelayMs (attempt : Nat) : Nat := retryBaseDelayMs * 2 ^ (attempt - 1)

/-- The retry condition of `doWithRetry` on a status code:
`resp.StatusCode == http.StatusTooManyRequests || resp.StatusCode >= 500`. -/
def retryableStatus (code : Nat) : Bool := code == 429 || decide (500 ≤ code)

/-- Whether an attempt outcome triggers a retry (transport errors always do). -/
def AttemptOutcome.isRetryable : AttemptOutcome → Bool
  | .transportErr => true
  | .response r => retryableStatus r.statusCode

/-- The `lastErr` value recorded for a retryable outcome. -/
def AttemptOutcome.toLastFailure : AttemptOutcome → LastFailure
  | .transportErr => .transport
  | .response r => .httpStatus r.statusCode

/-- Request construction in `doWithRetry`: method, url, fixed headers built
from the client's token, and the optional body. -/
def buildRequest (c : APIClient) (method url : String) (body : Option RouteValue) : HTTPRequest :=
  { method := method
    url := url
    headers := [("Authorization", "Bearer " ++ c.APIToken),
                ("Content-Type", "application/json"),
                ("User-Agent", "cloudflare-session-operator/1.0")]
    body := body }

/-- The retry loop of `doWithRetry`.  `server` gives the outcome of the
attempt with the given index for a given request; `cancelled attempt` tells
whether the context is cancelled during the backoff wait preceding that
attempt (Go: the `select` on `ctx.Done()`).  `fuel` counts the remaining
loop iterations (`maxRetries + 1` initially), `lastErr` is the running last
failure. -/
def doWithRetryAux (req : HTTPRequest) (server : HTTPRequest → Nat → AttemptOutcome)
    (cancelled : Nat → Bool) : Nat → Nat → Option LastFailure → RetryTrace
  | _, 0, lastErr => ⟨.error (.exhausted lastErr), 0, []⟩
  | attempt, fuel + 1, _ =>
    if 0 < attempt ∧ cancelled attempt = true then
      ⟨.error .ctxCancelled, 0, []⟩
    else
      match server req attempt with
      | .transportErr =>
          ⟨(doWithRetryAux req server cancelled (attempt + 1) fuel (some .transport)).result,
           (doWithRetryAux req server cancelled (attempt + 1) fuel (some .transport)).attempts + 1,
           (if 0 < attempt then [retryDelayMs attempt] else []) ++
             (doWithRetryAux req server cancelled (attempt + 1) fuel (some .transport)).waits⟩
      | .response r =>
          if retryableStatus r.statusCode then
            ⟨(doWithRetryAux req server cancelled (attempt + 1) fuel
                (some (.httpStatus r.statusCode))).result,
             (doWithRetryAux req server cancelled (attempt + 1) fuel
                (some (.httpStatus r.statusCode))).attempts + 1,
             (if 0 < attempt then [retryDelayMs attempt] else []) ++
               (doWithRetryAux req server cancelled (attempt + 1) fuel
                 (some (.httpStatus r.statusCode))).waits⟩
          else
            ⟨.ok r, 1, (if 0 < attempt then [retryDelayMs attempt] else [])⟩

/-- `doWithRetry` from the source: up to `maxRetries` retries (so
`maxRetries + 1` loop iterations), starting at attempt 0 with no last
error. -/
def doWithRetry (c : APIClient) (method url : String) (body : Option RouteValue)
    (server : HTTPRequest → Nat → AttemptOutcome) (cancelled : Nat → Bool) : RetryTrace :=
  doWithRetryAux (buildRequest c method url body) server cancelled 0 (maxRetries + 1) none

/-- `truncateBody` from the source. -/
def truncateBody (body : String) (n : Nat) : String :=
  if body.length ≤ n then body else (body.take n) ++ "..."

/-- The errors the client operations return, classified per the spec's
taxonomy; each constructor carries the Go error message. -/
inductive ClientError where
  | invalidInput (msg : String)
  | requestFailed (msg : String) (e : RetryError)
  | authError (msg : String)
  | apiStatusError (msg : String)
  | parseError (msg : String)
  | apiError (msg : String)
deriving DecidableEq

/-- The first structured error message of an envelope, with the
`"unknown error"` placeholder for an empty errors list (the common
`if len(apiResp.Errors) > 0` pattern in the source). -/
def firstErrorMessage (resp : cfAPIResponse) : String :=
  match resp.errors with
  | [] => "unknown error"
  | e :: _ => e.message

/-- The URL built by `EnsureSession`:
`fmt.Sprintf("%s/accounts/%s/access/keys", c.BaseURL, c.AccountID)`. -/
def ensureSessionURL (c : APIClient) : String :=
  c.BaseURL ++ "/accounts/" ++ c.AccountID ++ "/access/keys"

/-- The request issued by `EnsureSession` for a given sessionID; as in the
source, the sessionID does not occur in the method, URL, headers or body. -/
def ensureSessionRequest (c : APIClient) (sessionID : String) : HTTPRequest :=
  let _ := sessionID
  buildRequest c "GET" (ensureSessionURL c) none

/-- `EnsureSession` from the source.  Returns the (exists, error) pair
together with the number of network attempts performed. -/
def EnsureSession (c : APIClient) (sessionID : String)
    (server : HTTPRequest → Nat → AttemptOutcome) (cancelled : Nat → Bool) :
    Except ClientError Bool × Nat :=
  if sessionID = "" then
    (.error (.invalidInput ("sessionID is empty")), 0)
  else
    let t := doWithRetryAux (ensureSessionRequest c sessionID) server cancelled 0
      (maxRetries + 1) none
    match t.result with
    | .error e =>
        (.error (.requestFailed ("cloudflare session validation request failed") e), t.attempts)
    | .ok resp =>
      if resp.statusCode = 404 then (.ok false, t.attempts)
      else if resp.statusCode = 401 ∨ resp.statusCode = 403 then
        (.error (.authError ("cloudflare authentication failed (HTTP " ++
          toString resp.statusCode ++ "): check API token permissions")), t.attempts)
      else if resp.statusCode ≠ 200 then
        (.error (.apiStatusError ("cloudflare API returned unexpected status " ++
          toString resp.statusCode ++ ": " ++ truncateBody resp.rawBody 256)), t.attempts)
      else
        match resp.parsed with
        | none => (.error (.parseError ("failed to parse Cloudflare API response")), t.attempts)
        | some env =>
          if env.success then (.ok true, t.attempts)
          else
            (.error (.apiError ("cloudflare API error: " ++ firstErrorMessage env)), t.attempts)

/-- The URL built by `EnsureRoute` and `DeleteRoute`:
`%s/accounts/%s/storage/kv/namespaces/%s/values/%s`. -/
def kvValueURL (c : APIClient) (sessionID : String) : String :=
  c.BaseURL ++ "/accounts/" ++ c.AccountID ++ "/storage/kv/namespaces/" ++
    c.KVNamespaceID ++ "/values/" ++ sessionID

/-- `EnsureRoute` from the source.  `nowRFC3339` stands for
`time.Now().UTC().Format(time.RFC3339)`.  Returns the error (`none` =
success) and the number of network attempts performed. -/
def EnsureRoute (c : APIClient) (sessionID endpoint nowRFC3339 : String)
    (server : HTTPRequest → Nat → AttemptOutcome) (cancelled : Nat → Bool) :
    Option ClientError × Nat :=
  if sessionID = "" then (some (.invalidInput ("sessionID is empty")), 0)
  else if endpoint = "" then (some (.invalidInput ("endpoint is empty")), 0)
  else if c.KVNamespaceID = "" then
    (some (.invalidInput ("KV namespace ID is not configured (set CLOUDFLARE_KV_NAMESPACE_ID)")), 0)
  else
    let payload : RouteValue := ⟨endpoint, sessionID, nowRFC3339⟩
    let t := doWithRetryAux (buildRequest c "PUT" (kvValueURL c sessionID) (some payload))
      server cancelled 0 (maxRetries + 1) none
    match t.result with
    | .error e => (some (.requestFailed ("cloudflare KV write request failed") e), t.attempts)
    | .ok resp =>
      if resp.statusCode = 401 ∨ resp.statusCode = 403 then
        (some (.authError ("cloudflare authentication failed (HTTP " ++
          toString resp.statusCode ++ "): check API token permissions for Workers KV")), t.attempts)
      else if resp.statusCode ≠ 200 then
        (some (.apiStatusError ("cloudflare KV write failed (HTTP " ++
          toString resp.statusCode ++ "): " ++ truncateBody resp.rawBody 256)), t.attempts)
      else
        match resp.parsed with
        | none => (some (.parseError ("failed to parse KV write response")), t.attempts)
        | some env =>
          if env.success then (none, t.attempts)
          else
            (some (.apiError ("cloudflare KV write error: " ++ firstErrorMessage env)), t.attempts)

/-- `DeleteRoute` from the source: no-op success for an empty sessionID,
`InvalidInput` for an unconfigured KV namespace, 404 treated as success. -/
def DeleteRoute (c : APIClient) (sessionID : String)
    (server : HTTPRequest → Nat → AttemptOutcome) (cancelled : Nat → Bool) :
    Option ClientError × Nat :=
  if sessionID = "" then (none, 0)
  else if c.KVNamespaceID = "" then
    (some (.invalidInput ("KV namespace ID is not configured (set CLOUDFLARE_KV_NAMESPACE_ID)")), 0)
  else
    let t := doWithRetryAux (buildRequest c "DELETE" (kvValueURL c sessionID) none)
      server cancelled 0 (maxRetries + 1) none
    match t.result with
    | .error e => (some (.requestFailed ("cloudflare KV delete request failed") e), t.attempts)
    | .ok resp =>
      if resp.statusCode = 404 then (none, t.attempts)
      else if resp.statusCode = 401 ∨ resp.statusCode = 403 then
        (some (.authError ("cloudflare authentication failed (HTTP " ++
          toString resp.statusCode ++ "): check API token permissions for Workers KV")), t.attempts)
      else if resp.statusCode ≠ 200 then
        (some (.apiStatusError ("cloudflare KV delete failed (HTTP " ++
          toString resp.statusCode ++ "): " ++ truncateBody resp.rawBody 256)), t.attempts)
      else
        match resp.parsed with
        | none => (some (.parseError ("failed to parse KV delete response")), t.attempts)
        | some env =>
          if env.success then (none, t.attempts)
          else
            (some (.apiError ("cloudflare KV delete error: " ++ firstErrorMessage env)), t.attempts)

/-- `HasCredentials` from the source. -/
def HasCredentials (c : APIClient) : Bool :=
  !(c.AccountID == "") && !(c.APIToken == "")

/-- A server that answers every attempt of every request with the same
response. -/
def constServer (r : HTTPResponse) : HTTPRequest → Nat → AttemptOutcome :=
  fun _ _ => .response r

/-- A context that is never cancelled. -/
def noCancel : Nat → Bool := fun _ => false

/-! ## Name sanitizer -/

/-- Membership in `[a-z0-9]` (the allowed name characters of the spec's
regex). -/
def isNameChar (c : Char) : Bool :=
  (decide ('a' ≤ c) && decide (c ≤ 'z')) || (decide ('0' ≤ c) && decide (c ≤ '9'))

/-- Membership in `[a-z0-9-]`. -/
def isLabelChar (c : Char) : Bool := isNameChar c || c == '-'

/-- Hyphen test used by the trimming steps. -/
def isHyphen (c : Char) : Bool := c == '-'

/-- Modelled from the spec: step 1-2 of the sanitizer algorithm applied to
one character — lower-case it, and replace it by a hyphen when the result
is outside `[a-z0-9-]`. -/
def mapAllowed (c : Char) : Char :=
  if isLabelChar c.toLower then c.toLower else '-'

/-- Modelled from the spec: step 3 of the sanitizer algorithm — collapse
consecutive hyphens into one. -/
def collapseHyphens : List Char → List Char
  | [] => []
  | [c] => [c]
  | c1 :: c2 :: rest =>
    if c1 = '-' ∧ c2 = '-' then collapseHyphens (c2 :: rest)
    else c1 :: collapseHyphens (c2 :: rest)

/-- Modelled from the spec: steps 1-5 of `sanitizePodName` on the character
list — lower-case and replace disallowed characters (`mapAllowed`),
collapse hyphen runs, trim leading and trailing hyphens, truncate to 63,
and trim any trailing hyphen left by the cut. -/
def sanitizeCore (raw : String) : List Char :=
  List.rdropWhile isHyphen
    (List.take 63
      (List.rdropWhile isHyphen
        (List.dropWhile isHyphen
          (collapseHyphens (raw.data.map mapAllowed)))))

/-- Modelled from the spec: `sanitizePodName` (the implementation is absent
from the source tree; only its tests are).  Step 6 returns the fixed
fallback `"session-unknown"` when everything was stripped. -/
def sanitizePodName (raw : String) : String :=
  if sanitizeCore raw = [] then "session-unknown" else String.mk (sanitizeCore raw)

/-- Head test of the spec's regex `^[a-z0-9]...`. -/
def headIsName (l : List Char) : Bool :=
  match l.head? with
  | some c => isNameChar c
  | none => false

/-- Final test of the spec's regex `...[a-z0-9])?$`. -/
def lastIsName (l : List Char) : Bool :=
  match l.getLast? with
  | some c => isNameChar c
  | none => false

/-- The spec's regex `^[a-z0-9]([a-z0-9-]*[a-z0-9])?$` as a decidable
predicate: nonempty, first and last characters in `[a-z0-9]`, every
character in `[a-z0-9-]`. -/
def matchesDNSLabel (s : String) : Bool :=
  !s.data.isEmpty && headIsName s.data && s.data.all isLabelChar && lastIsName s.data

/-! ## Reconciler (modelled from the spec) -/

/-- The SessionBinding status phases. -/
inductive Phase where
  | Pending
  | Bound
  | Expired
  | Error
deriving DecidableEq

/-- `SessionBindingSpec`: sessionID, targetDeployment, optional TTL in
seconds. -/
structure SessionBindingSpec where
  sessionID : String
  targetDeployment : String
  ttlSeconds : Option Int
deriving DecidableEq

/-- `SessionBindingStatus`: phase (`none` = not yet set), message, last
programmed endpoint. -/
structure SessionBindingStatus where
  phase : Option Phase
  message : String
  endpoint : String
deriving DecidableEq

/-- A SessionBinding object; `creationTimestamp` is in seconds on an
absolute clock. -/
structure SessionBinding where
  creationTimestamp : Int
  spec : SessionBindingSpec
  status : SessionBindingStatus
deriving DecidableEq

/-- The slice of a pod the reconciler consumes: its IP and the first
container's first declared port (if any). -/
structure Pod where
  podIP : String
  firstContainerPort : Option Nat
deriving DecidableEq

/-- Modelled from the spec: `podEndpoint` — `<podIP>:<port>` with port 80
as default, and the empty string (not-yet-ready) when the pod has no IP. -/
def podEndpoint (p : Pod) : String :=
  if p.podIP = "" then ""
  else p.podIP ++ ":" ++ toString (p.firstContainerPort.getD 80)

/-- A call made to the polymorphic edge client during one reconcile. -/
inductive EdgeCall where
  | ensureSession (sessionID : String)
  | ensureRoute (sessionID endpoint : String)
  | deleteRoute (sessionID : String)
deriving DecidableEq

/-- The world one Reconcile invocation observes: the loaded binding (`none`
= not found), whether the target Deployment exists, the selected ready pod
(`none` = no ready pod), the edge client's answers, and the injected
clock. -/
structure ReconcileEnv where
  binding : Option SessionBinding
  deploymentExists : Bool
  readyPod : Option Pod
  ensureSessionResult : String → Except String Bool
  ensureRouteResult : String → String → Option String
  now : Int

/-- The effects of one Reconcile invocation: the persisted binding (`none`
= no status update), the emitted event reasons, the trace of edge-client
calls, the requested requeue delay in seconds (`none` = no requeue), and
the returned error. -/
structure ReconcileOutcome where
  newBinding : Option SessionBinding
  events : List String
  edgeCalls : List EdgeCall
  requeueAfter : Option Int
  err : Option String
deriving DecidableEq

/-- The TTL check of step 3: `ttlSeconds` is set and
`now >= creationTimestamp + ttlSeconds`. -/
def ttlExpired (b : SessionBinding) (now : Int) : Bool :=
  match b.spec.ttlSeconds with
  | none => false
  | some t => decide (b.creationTimestamp + t ≤ now)

/-- A status update setting the phase and message (endpoint untouched). -/
def setPhase (b : SessionBinding) (p : Phase) (msg : String) : SessionBinding :=
  { b with status := { b.status with phase := some p, message := msg } }

/-- Modelled from the spec: the `Reconcile` state machine of §4.3 (the
controller implementation is absent from the source tree; only its tests
are).  Steps in order: load, validate input, TTL check, session
validation, locate backing pod, compute endpoint, program route, commit.
The short pod-readiness requeue, unspecified beyond "a few seconds", is
taken as 5; the transient-failure requeue is 1 minute = 60. -/
def Reconcile (env : ReconcileEnv) : ReconcileOutcome :=
  match env.binding with
  | none => ⟨none, [], [], none, none⟩
  | some b =>
    if b.spec.sessionID = "" then
      ⟨some (setPhase b .Error ("sessionID is empty")), [], [], none, none⟩
    else if ttlExpired b env.now then
      ⟨some (setPhase b .Expired ("TTL expired")), ["TTLExpired"], [], none, none⟩
    else
      match env.ensureSessionResult b.spec.sessionID with
      | .error e =>
        ⟨some (setPhase b .Error e), [], [.ensureSession b.spec.sessionID], some 60, none⟩
      | .ok false =>
        ⟨some (setPhase b .Expired ("session no longer exists")), [],
          [.ensureSession b.spec.sessionID], none, none⟩
      | .ok true =>
        if env.deploymentExists = false then
          ⟨some b, [], [.ensureSession b.spec.sessionID], none,
            some ("deployment " ++ b.spec.targetDeployment ++ " not found")⟩
        else
          match env.readyPod with
          | none =>
            ⟨some (setPhase b .Pending ("waiting for ready pod")), [],
              [.ensureSession b.spec.sessionID], some 5, none⟩
          | some pod =>
            if podEndpoint pod = "" then
              ⟨some (setPhase b .Pending ("pod has no IP yet")), [],
                [.ensureSession b.spec.sessionID], some 5, none⟩
            else
              match env.ensureRouteResult b.spec.sessionID (podEndpoint pod) with
              | some e =>
                ⟨some (setPhase b .Error e), [],
                  [.ensureSession b.spec.sessionID,
                   .ensureRoute b.spec.sessionID (podEndpoint pod)], some 60, none⟩
              | none =>
                ⟨some { b with status :=
                    { phase := some .Bound, message := "", endpoint := podEndpoint pod } },
                  ["Bound"],
                  [.ensureSession b.spec.sessionID,
                   .ensureRoute b.spec.sessionID (podEndpoint pod)],
                  (match b.spec.ttlSeconds with
                   | some t => some (b.creationTimestamp + t - env.now)
                   | none => none), none⟩

/-! ## Concrete fixtures and proof-support definitions -/

/-- The backoff waits that would still be slept starting from `attempt`
with `fuel` loop iterations left (no wait precedes attempt 0). -/
def pendingDelays : Nat → Nat → List Nat
  | _, 0 => []
  | a, f + 1 => (if 0 < a then [retryDelayMs a] else []) ++ pendingDelays (a + 1) f

/-- A concrete client configuration (mirrors `newTestClient`). -/
def cFix : APIClient :=
  ⟨"https://api.example", "test-account-id", "test-api-token", "test-kv-namespace"⟩

/-- A concrete client configuration with the KV namespace unconfigured. -/
def cNoKV : APIClient := ⟨"https://api.example", "test-account-id", "test-api-token", ""⟩

/-- A 200 response with a success envelope. -/
def resp200ok : HTTPResponse := ⟨200, "", some ⟨true, []⟩⟩

/-- A bare 500 response. -/
def resp500 : HTTPResponse := ⟨500, "", none⟩

/-- A bare 400 response. -/
def resp400 : HTTPResponse := ⟨400, "", none⟩

/-- A 200 response whose envelope has `success=false` and one error
(mirrors `errorEnvelope(1000, "invalid token")`). -/
def respEnvErr : HTTPResponse := ⟨200, "", some ⟨false, [⟨1000, "invalid token"⟩]⟩⟩

/-- A 200 response whose envelope has `success=false` and no errors. -/
def respEnvEmpty : HTTPResponse := ⟨200, "", some ⟨false, []⟩⟩

/-- A server answering 500 on the first two attempts and 200 afterwards
(mirrors `TestDoWithRetry_RetriesOn500`). -/
def server500x2 : HTTPRequest → Nat → AttemptOutcome :=
  fun _ k => if k < 2 then .response resp500 else .response resp200ok

/-- A server always answering 400. -/
def server400 : HTTPRequest → Nat → AttemptOutcome := constServer resp400

/-- A server always failing at the transport level. -/
def serverDown : HTTPRequest → Nat → AttemptOutcome := fun _ _ => .transportErr

/-- A binding with an expired TTL but an empty sessionID. -/
def bEmptySidTTL : SessionBinding :=
  ⟨0, ⟨"", "my-deploy", some 300⟩, ⟨none, "", ""⟩⟩

/-- Environment reconciling `bEmptySidTTL` well past its TTL deadline. -/
def envEmptySidTTL : ReconcileEnv :=
  ⟨some bEmptySidTTL, true, none, fun _ => .ok true, fun _ _ => none, 1000⟩

/-- A binding with a non-empty sessionID and an expired TTL. -/
def bTTL : SessionBinding :=
  ⟨0, ⟨"sess-ttl", "my-deploy", some 300⟩, ⟨none, "", ""⟩⟩

/-- Environment reconciling `bTTL` past its TTL deadline, with a live
session and a ready pod available (none of which may be consulted). -/
def envTTL : ReconcileEnv :=
  ⟨some bTTL, true, some ⟨"10.0.0.5", some 8080⟩, fun _ => .ok true, fun _ _ => none, 1000⟩

/-- A binding without TTL referencing a missing Deployment. -/
def bNoDeploy : SessionBinding :=
  ⟨0, ⟨"sess-123", "missing-deploy", none⟩, ⟨none, "", ""⟩⟩

/-- Environment where the binding's target Deployment does not exist. -/
def envNoDeploy : ReconcileEnv :=
  ⟨some bNoDeploy, false, none, fun _ => .ok true, fun _ _ => none, 100⟩

/-- Environment where no binding exists for the reconciled key. -/
def envNoBinding : ReconcileEnv :=
  ⟨none, true, none, fun _ => .ok true, fun _ _ => none, 100⟩

/-- A binding without TTL whose upstream session has disappeared. -/
def bC9 : SessionBinding :=
  ⟨0, ⟨"sess-9", "dep", none⟩, ⟨none, "", ""⟩⟩

/-- First reconcile environment for `bC9`: the edge reports the session as
absent, driving the phase to Expired. -/
def envC9a : ReconcileEnv :=
  ⟨some bC9, true, some ⟨"10.0.0.5", some 8080⟩, fun _ => .ok false, fun _ _ => none, 100⟩

/-- Second reconcile environment: the binding as persisted by the first
reconcile (phase Expired), with the edge now reporting the session as
present again. -/
def envC9b : ReconcileEnv :=
  ⟨(Reconcile envC9a).newBinding, true, some ⟨"10.0.0.5", some 8080⟩,
    fun _ => .ok true, fun _ _ => none, 200⟩

/-! ## Retry-loop lemmas -/

/-- One loop iteration with a non-retryable response terminates with that
response and one more attempt. -/
theorem doWithRetryAux_step_done (req : HTTPRequest)
    (server : HTTPRequest → Nat → AttemptOutcome) (cancelled : Nat → Bool)
    (a fuel f : Nat) (lastErr : Option LastFailure) (r : HTTPResponse)
    (hf : fuel = f + 1) (h0 : server req a = .response r)
    (hnr : retryableStatus r.statusCode = false)
    (hca : ¬(0 < a ∧ cancelled a = true)) :
    doWithRetryAux req server cancelled a fuel lastErr =
      ⟨.ok r, 1, if 0 < a then [retryDelayMs a] else []⟩ := by
  subst hf
  simp [doWithRetryAux, h0, hnr, hca]

/-- One loop iteration with a retryable outcome recurses, adding one
attempt and the backoff wait. -/
theorem doWithRetryAux_step_retry (req : HTTPRequest)
    (server : HTTPRequest → Nat → AttemptOutcome) (cancelled : Nat → Bool)
    (a a2 fuel f : Nat) (lastErr : Option LastFailure)
    (hf : fuel = f + 1) (ha2 : a2 = a + 1)
    (h : (server req a).isRetryable = true)
    (hca : ¬(0 < a ∧ cancelled a = true)) :
    doWithRetryAux req server cancelled a fuel lastErr =
      ⟨(doWithRetryAux req server cancelled a2 f (some ((server req a).toLastFailure))).result,
       (doWithRetryAux req server cancelled a2 f (some ((server req a).toLastFailure))).attempts + 1,
       (if 0 < a then [retryDelayMs a] else []) ++
         (doWithRetryAux req server cancelled a2 f (some ((server req a).toLastFailure))).waits⟩ := by
  subst hf
  subst ha2
  cases hout : server req a with
  | transportErr =>
      simp [doWithRetryAux, hout, hca, AttemptOutcome.toLastFailure]
  | response r =>
      rw [hout] at h
      simp only [AttemptOutcome.isRetryable] at h
      simp [doWithRetryAux, hout, hca, h, AttemptOutcome.toLastFailure]

/-- A cancellation observed during the backoff wait aborts with the
context's error and no further attempt. -/
theorem doWithRetryAux_step_cancel (req : HTTPRequest)
    (server : HTTPRequest → Nat → AttemptOutcome) (cancelled : Nat → Bool)
    (a fuel f : Nat) (lastErr : Option LastFailure)
    (hf : fuel = f + 1) (ha : 0 < a) (hc : cancelled a = true) :
    doWithRetryAux req server cancelled a fuel lastErr =
      ⟨.error .ctxCancelled, 0, []⟩ := by
  subst hf
  simp [doWithRetryAux, ha, hc]

/-- Exhausted fuel returns the wrapped last failure. -/
theorem doWithRetryAux_base (req : HTTPRequest)
    (server : HTTPRequest → Nat → AttemptOutcome) (cancelled : Nat → Bool)
    (a : Nat) (lastErr : Option LastFailure) :
    doWithRetryAux req server cancelled a 0 lastErr =
      ⟨.error (.exhausted lastErr), 0, []⟩ := rfl

/-- The loop performs at most `fuel` attempts. -/
theorem doWithRetryAux_attempts_le (req : HTTPRequest)
    (server : HTTPRequest → Nat → AttemptOutcome) (cancelled : Nat → Bool) :
    ∀ fuel a lastErr,
      (doWithRetryAux req server cancelled a fuel lastErr).attempts ≤ fuel := by
  intro fuel
  induction fuel with
  | zero => intro a lastErr; simp [doWithRetryAux]
  | succ f ih =>
    intro a lastErr
    simp only [doWithRetryAux]
    split
    · simp
    · split
      · simpa using Nat.succ_le_succ (ih _ _)
      · split
        · simpa using Nat.succ_le_succ (ih _ _)
        · simp

/-- The waits actually slept are an initial segment of the schedule of
backoff delays for the remaining attempts. -/
theorem doWithRetryAux_waits_pending (req : HTTPRequest)
    (server : HTTPRequest → Nat → AttemptOutcome) (cancelled : Nat → Bool) :
    ∀ fuel a lastErr, ∃ rest,
      (doWithRetryAux req server cancelled a fuel lastErr).waits ++ rest =
        pendingDelays a fuel := by
  intro fuel
  induction fuel with
  | zero => intro a lastErr; exact ⟨[], rfl⟩
  | succ f ih =>
    intro a lastErr
    simp only [doWithRetryAux]
    split
    · exact ⟨pendingDelays a (f + 1), by simp⟩
    · split
      · obtain ⟨rest, hr⟩ := ih (a + 1) (some .transport)
        refine ⟨rest, ?_⟩
        simp only [List.append_assoc, hr, pendingDelays]
      · split
        · rename_i r hret hstat
          obtain ⟨rest, hr⟩ := ih (a + 1) (some (.httpStatus r.statusCode))
          refine ⟨rest, ?_⟩
          simp only [List.append_assoc, hr, pendingDelays]
        · exact ⟨pendingDelays (a + 1) f, by simp [pendingDelays]⟩

/-! ## Claim theorems: edge client -/

/-- C2: `doWithRetry` performs at most 4 attempts; the backoff waits slept
are an initial segment of 500ms, 1s, 2s; a non-retryable first response is
returned immediately after exactly one attempt; a second attempt happens
only when the first outcome was retryable (transport error, HTTP 429, or
HTTP ≥ 500); cancellation during the first backoff wait aborts with the
context's error; after four retryable outcomes the result is an error
wrapping the last observed failure, with 4 attempts and the full
500/1000/2000 wait schedule; concretely, a server answering 500, 500, 200
yields success after exactly 3 attempts, and a server answering 400 yields
exactly 1 attempt. -/
theorem doWithRetry_policy (c : APIClient) (method url : String) (body : Option RouteValue)
    (server : HTTPRequest → Nat → AttemptOutcome) (cancelled : Nat → Bool) :
    (doWithRetry c method url body server cancelled).attempts ≤ 4 ∧
    (∃ rest, (doWithRetry c method url body server cancelled).waits ++ rest =
       [500, 1000, 2000]) ∧
    (∀ r, server (buildRequest c method url body) 0 = .response r →
       retryableStatus r.statusCode = false →
       doWithRetry c method url body server cancelled = ⟨.ok r, 1, []⟩) ∧
    (2 ≤ (doWithRetry c method url body server cancelled).attempts →
       (server (buildRequest c method url body) 0).isRetryable = true) ∧
    ((server (buildRequest c method url body) 0).isRetryable = true → cancelled 1 = true →
       doWithRetry c method url body server cancelled = ⟨.error .ctxCancelled, 1, []⟩) ∧
    ((∀ j, j ≤ 3 → (server (buildRequest c method url body) j).isRetryable = true) →
       (∀ j, cancelled j = false) →
       doWithRetry c method url body server cancelled =
         ⟨.error (.exhausted (some ((server (buildRequest c method url body) 3).toLastFailure))),
          4, [500, 1000, 2000]⟩) ∧
    doWithRetry cFix "GET" "/test" none server500x2 noCancel = ⟨.ok resp200ok, 3, [500, 1000]⟩ ∧
    doWithRetry cFix "GET" "/test" none server400 noCancel = ⟨.ok resp400, 1, []⟩ := by
  refine ⟨?_, ?_, ?_, ?_, ?_, ?_, ?_, ?_⟩
  · have h := doWithRetryAux_attempts_le (buildRequest c method url body) server cancelled
      (maxRetries + 1) 0 none
    simpa [doWithRetry, maxRetries] using h
  · obtain ⟨rest, hr⟩ := doWithRetryAux_waits_pending (buildRequest c method url body)
      server cancelled (maxRetries + 1) 0 none
    have hpd : pendingDelays 0 (maxRetries + 1) = [500, 1000, 2000] := by decide
    exact ⟨rest, hr.trans hpd⟩
  · intro r h0 hnr
    have h := doWithRetryAux_step_done (buildRequest c method url body) server cancelled
      0 (maxRetries + 1) maxRetries none r rfl h0 hnr (by simp)
    simpa [doWithRetry] using h
  · intro h2
    by_cases hret : (server (buildRequest c method url body) 0).isRetryable = true
    · exact hret
    · exfalso
      cases hout : server (buildRequest c method url body) 0 with
      | transportErr => rw [hout] at hret; exact hret rfl
      | response r =>
          rw [hout] at hret
          have hnr : retryableStatus r.statusCode = false := by
            simpa [AttemptOutcome.isRetryable] using hret
          have hdone := doWithRetryAux_step_done (buildRequest c method url body) server
            cancelled 0 (maxRetries + 1) maxRetries none r rfl hout hnr (by simp)
          simp only [doWithRetry] at h2
          rw [hdone] at h2
          simp at h2
  · intro hret hc1
    simp only [doWithRetry]
    rw [doWithRetryAux_step_retry (buildRequest c method url body) server cancelled
      0 1 (maxRetries + 1) maxRetries none rfl rfl hret (by simp)]
    rw [doWithRetryAux_step_cancel (buildRequest c method url body) server cancelled
      1 maxRetries 2 (some ((server (buildRequest c method url body) 0).toLastFailure))
      rfl (by norm_num) hc1]
    simp
  · intro hall hnc
    have hca : ∀ j, ¬(0 < j ∧ cancelled j = true) := by intro j; simp [hnc j]
    simp only [doWithRetry]
    rw [doWithRetryAux_step_retry (buildRequest c method url body) server cancelled
      0 1 (maxRetries + 1) maxRetries none rfl rfl (hall 0 (by norm_num)) (hca 0)]
    rw [doWithRetryAux_step_retry (buildRequest c method url body) server cancelled
      1 2 maxRetries 2 (some ((server (buildRequest c method url body) 0).toLastFailure))
      rfl rfl (hall 1 (by norm_num)) (hca 1)]
    rw [doWithRetryAux_step_retry (buildRequest c method url body) server cancelled
      2 3 2 1 (some ((server (buildRequest c method url body) 1).toLastFailure))
      rfl rfl (hall 2 (by norm_num)) (hca 2)]
    rw [doWithRetryAux_step_retry (buildRequest c method url body) server cancelled
      3 4 1 0 (some ((server (buildRequest c method url body) 2).toLastFailure))
      rfl rfl (hall 3 (by norm_num)) (hca 3)]
    rw [doWithRetryAux_base]
    simp [retryDelayMs, retryBaseDelayMs]
  · rfl
  · rfl

/-- C2 witness: the non-retryable component instantiated at the constant
400 server — exactly one attempt, the 400 returned as-is. -/
theorem doWithRetry_policy_witness :
    doWithRetry cFix "GET" "/test" none server400 noCancel = ⟨.ok resp400, 1, []⟩ :=
  (doWithRetry_policy cFix "GET" "/test" none server400 noCancel).2.2.1 resp400 rfl (by decide)

/-- C6: `EnsureSession` with an empty sessionID returns the InvalidInput
error "sessionID is empty" and performs zero network attempts, whatever
the server would answer. -/
theorem ensureSession_empty_sessionID (c : APIClient)
    (server : HTTPRequest → Nat → AttemptOutcome) (cancelled : Nat → Bool) :
    EnsureSession c "" server cancelled =
      (.error (.invalidInput ("sessionID is empty")), 0) := rfl

/-- C7: `DeleteRoute` with an empty sessionID returns success (no error)
and performs zero network attempts, whatever the server would answer. -/
theorem deleteRoute_empty_sessionID (c : APIClient)
    (server : HTTPRequest → Nat → AttemptOutcome) (cancelled : Nat → Bool) :
    DeleteRoute c "" server cancelled = (none, 0) := rfl

/-- C10: the empty-sessionID no-op of `DeleteRoute` takes precedence over
the unconfigured-KV-namespace check — with an empty sessionID the call
succeeds with zero attempts even when `KVNamespaceID` is empty — and the
unconfigured-namespace InvalidInput error is only reachable for non-empty
sessionIDs. -/
theorem deleteRoute_empty_overrides_kv_check :
    (∀ (c : APIClient) (server : HTTPRequest → Nat → AttemptOutcome) (cancelled : Nat → Bool),
       c.KVNamespaceID = "" → DeleteRoute c "" server cancelled = (none, 0)) ∧
    (∀ (c : APIClient) (sid : String) (server : HTTPRequest → Nat → AttemptOutcome)
       (cancelled : Nat → Bool),
       (DeleteRoute c sid server cancelled).1 =
         some (.invalidInput
           ("KV namespace ID is not configured (set CLOUDFLARE_KV_NAMESPACE_ID)")) →
       sid ≠ "") := by
  constructor
  · intro c server cancelled _
    rfl
  · intro c sid server cancelled h hsid
    subst hsid
    simp [DeleteRoute] at h

/-- C10 witness: a client with no KV namespace configured still succeeds
deleting the empty sessionID. -/
theorem deleteRoute_empty_overrides_kv_check_witness :
    DeleteRoute cNoKV "" server400 noCancel = (none, 0) :=
  deleteRoute_empty_overrides_kv_check.1 cNoKV server400 noCancel rfl

/-- C4: for any two non-empty sessionIDs, `EnsureSession` builds the same
request — a GET of `{BaseURL}/accounts/{AccountID}/access/keys` with no
trace of the sessionID in method, URL, headers or body — and therefore
returns the same (exists, error, attempts) result against the same server
behaviour. -/
theorem ensureSession_ignores_sessionID (c : APIClient) (s1 s2 : String)
    (server : HTTPRequest → Nat → AttemptOutcome) (cancelled : Nat → Bool)
    (h1 : s1 ≠ "") (h2 : s2 ≠ "") :
    ensureSessionRequest c s1 = ensureSessionRequest c s2 ∧
    ensureSessionRequest c s1 = buildRequest c "GET" (ensureSessionURL c) none ∧
    EnsureSession c s1 server cancelled = EnsureSession c s2 server cancelled := by
  refine ⟨rfl, rfl, ?_⟩
  simp only [EnsureSession, ensureSessionRequest, if_neg h1, if_neg h2]

/-- C4 witness: two distinct concrete sessionIDs observe the identical
result against the same concrete server. -/
theorem ensureSession_ignores_sessionID_witness :
    EnsureSession cFix "session-123" (constServer resp200ok) noCancel =
      EnsureSession cFix "other-session" (constServer resp200ok) noCancel :=
  (ensureSession_ignores_sessionID cFix "session-123" "other-session"
    (constServer resp200ok) noCancel (by decide) (by decide)).2.2

/-- C5: an HTTP 200 whose envelope has `success=false` makes every edge
operation fail with an application-level error whose message carries
`firstErrorMessage` — the first entry of the errors list, or the
"unknown error" placeholder when that list is empty. -/
theorem envelope_failure_surfaces_first_error
    (c : APIClient) (r : HTTPResponse) (e : cfAPIResponse)
    (sid ep nowStr : String) (cancelled : Nat → Bool)
    (hst : r.statusCode = 200) (hp : r.parsed = some e) (hs : e.success = false)
    (hsid : sid ≠ "") (hep : ep ≠ "") (hkv : c.KVNamespaceID ≠ "") :
    (EnsureSession c sid (constServer r) cancelled).1 =
        .error (.apiError ("cloudflare API error: " ++ firstErrorMessage e)) ∧
    (EnsureRoute c sid ep nowStr (constServer r) cancelled).1 =
        some (.apiError ("cloudflare KV write error: " ++ firstErrorMessage e)) ∧
    (DeleteRoute c sid (constServer r) cancelled).1 =
        some (.apiError ("cloudflare KV delete error: " ++ firstErrorMessage e)) ∧
    (e.errors = [] → firstErrorMessage e = "unknown error") ∧
    (∀ err rest, e.errors = err :: rest → firstErrorMessage e = err.message) := by
  have hnr : retryableStatus r.statusCode = false := by rw [hst]; decide
  refine ⟨?_, ?_, ?_, ?_, ?_⟩
  · have htr := doWithRetryAux_step_done (ensureSessionRequest c sid) (constServer r)
      cancelled 0 (maxRetries + 1) maxRetries none r rfl rfl hnr (by simp)
    simp only [EnsureSession, if_neg hsid, htr]
    simp [hst, hp, hs]
  · have htr := doWithRetryAux_step_done
      (buildRequest c "PUT" (kvValueURL c sid) (some ⟨ep, sid, nowStr⟩)) (constServer r)
      cancelled 0 (maxRetries + 1) maxRetries none r rfl rfl hnr (by simp)
    simp only [EnsureRoute, if_neg hsid, if_neg hep, if_neg hkv, htr]
    simp [hst, hp, hs]
  · have htr := doWithRetryAux_step_done
      (buildRequest c "DELETE" (kvValueURL c sid) none) (constServer r)
      cancelled 0 (maxRetries + 1) maxRetries none r rfl rfl hnr (by simp)
    simp only [DeleteRoute, if_neg hsid, if_neg hkv, htr]
    simp [hst, hp, hs]
  · intro h
    simp [firstErrorMessage, h]
  · intro err rest h
    simp [firstErrorMessage, h]

/-- C5 witness: concrete envelopes — one error entry surfaces "invalid
token", an empty errors list surfaces "unknown error". -/
theorem envelope_failure_surfaces_first_error_witness :
    (EnsureSession cFix "session-123" (constServer respEnvErr) noCancel).1 =
      .error (.apiError ("cloudflare API error: invalid token")) ∧
    (EnsureSession cFix "session-123" (constServer respEnvEmpty) noCancel).1 =
      .error (.apiError ("cloudflare API error: unknown error")) := by
  constructor
  · exact (envelope_failure_surfaces_first_error cFix respEnvErr
      ⟨false, [⟨1000, "invalid token"⟩]⟩ "session-123" "10.0.0.5:8080" "2026-01-01T00:00:00Z"
      noCancel rfl rfl rfl (by decide) (by decide) (by decide)).1
  · exact (envelope_failure_surfaces_first_error cFix respEnvEmpty
      ⟨false, []⟩ "session-123" "10.0.0.5:8080" "2026-01-01T00:00:00Z"
      noCancel rfl rfl rfl (by decide) (by decide) (by decide)).1

/-! ## Sanitizer lemmas -/

/-- The head of a list, when present, is a member. -/
theorem mem_of_head_some {α : Type} (l : List α) (a : α) (h : l.head? = some a) : a ∈ l := by
  cases l with
  | nil => cases h
  | cons c t =>
      simp only [List.head?_cons, Option.some.injEq] at h
      subst h
      exact List.mem_cons_self c t

/-- The last element of a list, when present, is a member. -/
theorem mem_of_getLast_some {α : Type} (l : List α) (a : α) (h : l.getLast? = some a) :
    a ∈ l := by
  rw [← List.head?_reverse] at h
  exact (List.mem_reverse).mp (mem_of_head_some l.reverse a h)

/-- The head surviving `dropWhile p` falsifies `p`. -/
theorem head_dropWhile_false {α : Type} (p : α → Bool) (l : List α) (a : α)
    (h : (l.dropWhile p).head? = some a) : p a = false := by
  induction l with
  | nil => cases h
  | cons c t ih =>
      cases hpc : p c with
      | true =>
          rw [List.dropWhile_cons] at h
          rw [hpc] at h
          simp only [if_true] at h
          exact ih h
      | false =>
          rw [List.dropWhile_cons] at h
          rw [hpc] at h
          simp only [Bool.false_eq_true, if_false, List.head?_cons, Option.some.injEq] at h
          subst h
          exact hpc

/-- `rdropWhile p` is an initial segment of the list. -/
theorem exists_rdropWhile_append {α : Type} (p : α → Bool) (l : List α) :
    ∃ t, l = l.rdropWhile p ++ t := by
  refine ⟨(l.reverse.takeWhile p).reverse, ?_⟩
  calc l = l.reverse.reverse := (List.reverse_reverse l).symm
    _ = (l.reverse.takeWhile p ++ l.reverse.dropWhile p).reverse := by
        rw [List.takeWhile_append_dropWhile p l.reverse]
    _ = (l.reverse.dropWhile p).reverse ++ (l.reverse.takeWhile p).reverse :=
        List.reverse_append _ _
    _ = l.rdropWhile p ++ (l.reverse.takeWhile p).reverse := rfl

/-- Elements of `rdropWhile p l` are elements of `l`. -/
theorem mem_of_mem_rdropWhile {α : Type} (p : α → Bool) (l : List α) (x : α)
    (h : x ∈ l.rdropWhile p) : x ∈ l := by
  obtain ⟨t, ht⟩ := exists_rdropWhile_append p l
  rw [ht]
  exact List.mem_append_left t h

/-- `rdropWhile` never lengthens a list. -/
theorem length_rdropWhile_le {α : Type} (p : α → Bool) (l : List α) :
    (l.rdropWhile p).length ≤ l.length := by
  obtain ⟨t, ht⟩ := exists_rdropWhile_append p l
  calc (l.rdropWhile p).length ≤ (l.rdropWhile p).length + t.length := Nat.le_add_right _ _
    _ = (l.rdropWhile p ++ t).length := (List.length_append _ _).symm
    _ = l.length := by rw [← ht]

/-- The head surviving `rdropWhile` is the head of the list. -/
theorem head_of_rdropWhile {α : Type} (p : α → Bool) (l : List α) (a : α)
    (h : (l.rdropWhile p).head? = some a) : l.head? = some a := by
  obtain ⟨t, ht⟩ := exists_rdropWhile_append p l
  cases hrd : l.rdropWhile p with
  | nil => rw [hrd] at h; cases h
  | cons x xs =>
      rw [hrd] at h ht
      simp only [List.head?_cons, Option.some.injEq] at h
      subst h
      rw [ht]
      rfl

/-- The last element surviving `rdropWhile p` falsifies `p`. -/
theorem getLast_rdropWhile_false {α : Type} (p : α → Bool) (l : List α) (a : α)
    (h : (l.rdropWhile p).getLast? = some a) : p a = false := by
  have h2 : (l.reverse.dropWhile p).head? = some a := by
    rw [← List.head?_reverse] at h
    rw [List.rdropWhile, List.reverse_reverse] at h
    exact h
  exact head_dropWhile_false p l.reverse a h2

/-- The head of a positive-length take is the head of the list. -/
theorem head_take_pos {α : Type} (l : List α) (n : Nat) (hn : 0 < n) :
    (l.take n).head? = l.head? := by
  cases n with
  | zero => exact absurd hn (Nat.lt_irrefl 0)
  | succ m => cases l <;> simp

/-- `collapseHyphens` only removes elements. -/
theorem mem_collapseHyphens (x : Char) : ∀ l, x ∈ collapseHyphens l → x ∈ l := by
  intro l
  induction l with
  | nil => simp [collapseHyphens]
  | cons c t ih =>
      cases t with
      | nil => simp [collapseHyphens]
      | cons d u =>
          simp only [collapseHyphens]
          split
          · intro hx
            exact List.mem_cons_of_mem c (ih hx)
          · intro hx
            rcases List.mem_cons.mp hx with h | h
            · subst h
              exact List.mem_cons_self x (d :: u)
            · exact List.mem_cons_of_mem c (ih h)

/-- `mapAllowed` always lands in `[a-z0-9-]`. -/
theorem isLabelChar_mapAllowed (c : Char) : isLabelChar (mapAllowed c) = true := by
  unfold mapAllowed
  split
  · next h => exact h
  · decide

/-- Every character of the sanitized core is in `[a-z0-9-]`. -/
theorem mem_sanitizeCore_isLabelChar (raw : String) (x : Char)
    (hx : x ∈ sanitizeCore raw) : isLabelChar x = true := by
  have h1 : x ∈ List.take 63 (List.rdropWhile isHyphen
      (List.dropWhile isHyphen (collapseHyphens (raw.data.map mapAllowed)))) :=
    mem_of_mem_rdropWhile _ _ _ hx
  have h2 : x ∈ List.rdropWhile isHyphen
      (List.dropWhile isHyphen (collapseHyphens (raw.data.map mapAllowed))) :=
    List.take_subset 63 _ h1
  have h3 : x ∈ List.dropWhile isHyphen (collapseHyphens (raw.data.map mapAllowed)) :=
    mem_of_mem_rdropWhile _ _ _ h2
  have h4 : x ∈ collapseHyphens (raw.data.map mapAllowed) :=
    (List.dropWhile_sublist _).subset h3
  have h5 : x ∈ raw.data.map mapAllowed := mem_collapseHyphens x _ h4
  obtain ⟨c, _, hc⟩ := List.mem_map.mp h5
  rw [← hc]
  exact isLabelChar_mapAllowed c

/-! ## Claim theorem: sanitizer -/

/-- C3: for every input, `sanitizePodName` returns a non-empty string of at
most 63 characters that matches `^[a-z0-9]([a-z0-9-]*[a-z0-9])?$` (in
particular it never ends in a hyphen) or is the literal fallback
`"session-unknown"`. -/
theorem sanitizePodName_valid (raw : String) :
    sanitizePodName raw ≠ "" ∧ (sanitizePodName raw).length ≤ 63 ∧
    (sanitizePodName raw = "session-unknown" ∨
      matchesDNSLabel (sanitizePodName raw) = true) := by
  by_cases hf : sanitizeCore raw = []
  · rw [sanitizePodName, if_pos hf]
    exact ⟨by decide, by decide, Or.inl rfl⟩
  · rw [sanitizePodName, if_neg hf]
    have hlen : (sanitizeCore raw).length ≤ 63 := by
      have h1 := length_rdropWhile_le isHyphen (List.take 63 (List.rdropWhile isHyphen
        (List.dropWhile isHyphen (collapseHyphens (raw.data.map mapAllowed)))))
      have h2 := List.length_take_le 63 (List.rdropWhile isHyphen
        (List.dropWhile isHyphen (collapseHyphens (raw.data.map mapAllowed))))
      exact le_trans h1 h2
    refine ⟨?_, hlen, Or.inr ?_⟩
    · intro h
      apply hf
      have h2 := congrArg String.data h
      simpa using h2
    · rw [matchesDNSLabel]
      simp only [Bool.and_eq_true]
      refine ⟨⟨⟨?_, ?_⟩, ?_⟩, ?_⟩
      · simp [hf]
      · cases hh : (sanitizeCore raw).head? with
        | none => exact absurd (List.head?_eq_none_iff.mp hh) hf
        | some a =>
            simp only [headIsName, hh]
            have hmem : a ∈ sanitizeCore raw := mem_of_head_some _ _ hh
            have hlab : isLabelChar a = true := mem_sanitizeCore_isLabelChar raw a hmem
            have h1 : (List.take 63 (List.rdropWhile isHyphen (List.dropWhile isHyphen
                (collapseHyphens (raw.data.map mapAllowed))))).head? = some a :=
              head_of_rdropWhile isHyphen _ a hh
            have h2 : (List.rdropWhile isHyphen (List.dropWhile isHyphen
                (collapseHyphens (raw.data.map mapAllowed)))).head? = some a := by
              rw [← head_take_pos _ 63 (by norm_num)]
              exact h1
            have h3 : (List.dropWhile isHyphen
                (collapseHyphens (raw.data.map mapAllowed))).head? = some a :=
              head_of_rdropWhile isHyphen _ a h2
            have hnh : isHyphen a = false := head_dropWhile_false isHyphen _ a h3
            simp only [isLabelChar] at hlab
            simp only [isHyphen] at hnh
            rw [hnh] at hlab
            simpa using hlab
      · rw [List.all_eq_true]
        intro x hx
        exact mem_sanitizeCore_isLabelChar raw x hx
      · cases hl : (sanitizeCore raw).getLast? with
        | none =>
            exfalso
            apply hf
            have h2 : (sanitizeCore raw).reverse.head? = none := by
              rw [List.head?_reverse]
              exact hl
            have h3 := List.head?_eq_none_iff.mp h2
            simpa using h3
        | some a =>
            simp only [lastIsName, hl]
            have hmem : a ∈ sanitizeCore raw := mem_of_getLast_some _ _ hl
            have hlab : isLabelChar a = true := mem_sanitizeCore_isLabelChar raw a hmem
            have hnh : isHyphen a = false := getLast_rdropWhile_false isHyphen _ a hl
            simp only [isLabelChar] at hlab
            simp only [isHyphen] at hnh
            rw [hnh] at hlab
            simpa using hlab

/-- The sanitizer model agrees with every expected value of the repo's
`TestSanitizePodName_*` tests. -/
theorem sanitizePodName_matches_repo_tests :
    sanitizePodName "session-abc123" = "session-abc123" ∧
    sanitizePodName "Session-ABC123" = "session-abc123" ∧
    sanitizePodName "session_my_id" = "session-my-id" ∧
    sanitizePodName "session-@#$%^&*()!" = "session" ∧
    sanitizePodName "--session-abc--" = "session-abc" ∧
    sanitizePodName "session---abc---def" = "session-abc-def" ∧
    sanitizePodName "@#$%^&*()" = "session-unknown" ∧
    sanitizePodName "session.user.123" = "session-user-123" := by
  refine ⟨?_, ?_, ?_, ?_, ?_, ?_, ?_, ?_⟩ <;> decide

/-! ## Claim theorems: reconciler -/

/-- A binding with non-empty sessionID past its TTL deadline reconciles to
the Expired status update with a TTLExpired event and nothing else. -/
theorem reconcile_expired_of_ttl (env : ReconcileEnv) (b : SessionBinding) (t : Int)
    (hb : env.binding = some b) (hsid : b.spec.sessionID ≠ "")
    (httl : b.spec.ttlSeconds = some t) (hexp : b.creationTimestamp + t ≤ env.now) :
    Reconcile env =
      ⟨some (setPhase b .Expired ("TTL expired")), ["TTLExpired"], [], none, none⟩ := by
  have hx : ttlExpired b env.now = true := by
    simpa [ttlExpired, httl] using hexp
  simp [Reconcile, hb, hsid, hx]

/-- C1 (amended: the binding's sessionID must also be non-empty, since the
input-validation step precedes the TTL check): a SessionBinding with
non-empty sessionID whose TTL is set and whose deadline is at or before
the injected clock reconciles to phase Expired with a TTLExpired event, a
persisted status, success with no requeue, and zero edge-client calls (in
particular zero EnsureSession calls). -/
theorem reconcile_ttl_expired_phase (env : ReconcileEnv) (b : SessionBinding) (t : Int)
    (hb : env.binding = some b) (hsid : b.spec.sessionID ≠ "")
    (httl : b.spec.ttlSeconds = some t) (hexp : b.creationTimestamp + t ≤ env.now) :
    ((Reconcile env).newBinding.map fun nb => nb.status.phase) = some (some Phase.Expired) ∧
    (Reconcile env).events = ["TTLExpired"] ∧
    (Reconcile env).requeueAfter = none ∧
    (Reconcile env).err = none ∧
    (Reconcile env).edgeCalls = [] := by
  rw [reconcile_expired_of_ttl env b t hb hsid httl hexp]
  exact ⟨rfl, rfl, rfl, rfl, rfl⟩

/-- C1 witness: the concrete expired binding `bTTL` at clock 1000. -/
theorem reconcile_ttl_expired_phase_witness :
    ((Reconcile envTTL).newBinding.map fun nb => nb.status.phase) = some (some Phase.Expired) ∧
    (Reconcile envTTL).events = ["TTLExpired"] ∧
    (Reconcile envTTL).requeueAfter = none ∧
    (Reconcile envTTL).err = none ∧
    (Reconcile envTTL).edgeCalls = [] :=
  reconcile_ttl_expired_phase envTTL bTTL 300 rfl (by decide) rfl (by decide)

/-- C1 counterexample: a SessionBinding whose TTL is set and expired but
whose sessionID is empty is driven to phase Error, not Expired — the
input-validation step fires before the TTL check. -/
theorem ttl_expired_empty_sid_goes_error :
    envEmptySidTTL.binding = some bEmptySidTTL ∧
    bEmptySidTTL.spec.ttlSeconds = some 300 ∧
    bEmptySidTTL.creationTimestamp + 300 ≤ envEmptySidTTL.now ∧
    ((Reconcile envEmptySidTTL).newBinding.map fun nb => nb.status.phase) =
      some (some Phase.Error) ∧
    ((Reconcile envEmptySidTTL).newBinding.map fun nb => nb.status.phase) ≠
      some (some Phase.Expired) := by
  refine ⟨rfl, rfl, by decide, rfl, by decide⟩

/-- C8: a loaded SessionBinding with validated session whose target
Deployment does not exist makes Reconcile return a non-nil error, whereas
a key with no SessionBinding returns nil with no requeue. -/
theorem reconcile_missing_deployment_vs_missing_binding :
    (∀ (env : ReconcileEnv) (b : SessionBinding), env.binding = some b →
       b.spec.sessionID ≠ "" → ttlExpired b env.now = false →
       env.ensureSessionResult b.spec.sessionID = .ok true →
       env.deploymentExists = false →
       (Reconcile env).err =
         some ("deployment " ++ b.spec.targetDeployment ++ " not found")) ∧
    (∀ env : ReconcileEnv, env.binding = none →
       (Reconcile env).err = none ∧ (Reconcile env).requeueAfter = none) := by
  constructor
  · intro env b hb hsid httl hsess hdep
    simp [Reconcile, hb, hsid, httl, hsess, hdep]
  · intro env hb
    constructor <;> simp [Reconcile, hb]

/-- C8 witness: the concrete missing-deployment and missing-binding
environments. -/
theorem reconcile_missing_deployment_vs_missing_binding_witness :
    (Reconcile envNoDeploy).err = some ("deployment missing-deploy not found") ∧
    (Reconcile envNoBinding).err = none ∧ (Reconcile envNoBinding).requeueAfter = none := by
  refine ⟨?_, (reconcile_missing_deployment_vs_missing_binding.2 envNoBinding rfl).1,
    (reconcile_missing_deployment_vs_missing_binding.2 envNoBinding rfl).2⟩
  exact reconcile_missing_deployment_vs_missing_binding.1 envNoDeploy bNoDeploy rfl
    (by decide) rfl rfl rfl

/-- C9 (amended: terminality holds for the TTL path — a binding with
non-empty sessionID whose TTL deadline has passed keeps phase Expired and
triggers zero edge-client calls on every later reconcile, the TTL
condition being stable under the advancing clock; a binding that became
Expired through upstream session absence, TTL unset, is re-validated). -/
theorem reconcile_ttl_expired_terminal (env : ReconcileEnv) (b : SessionBinding)
    (t now2 : Int) (hb : env.binding = some b) (hsid : b.spec.sessionID ≠ "")
    (httl : b.spec.ttlSeconds = some t) (hexp : b.creationTimestamp + t ≤ env.now)
    (hle : env.now ≤ now2) :
    (Reconcile { env with now := now2 }).edgeCalls = [] ∧
    ((Reconcile { env with now := now2 }).newBinding.map fun nb => nb.status.phase) =
      some (some Phase.Expired) := by
  have hexp2 : b.creationTimestamp + t ≤ now2 := le_trans hexp hle
  rw [reconcile_expired_of_ttl { env with now := now2 } b t hb hsid httl hexp2]
  exact ⟨rfl, rfl⟩

/-- C9 witness: the expired binding `bTTL` reconciled again much later
still makes no edge calls and stays Expired. -/
theorem reconcile_ttl_expired_terminal_witness :
    (Reconcile { envTTL with now := 5000 }).edgeCalls = [] ∧
    ((Reconcile { envTTL with now := 5000 }).newBinding.map fun nb => nb.status.phase) =
      some (some Phase.Expired) :=
  reconcile_ttl_expired_terminal envTTL bTTL 300 5000 rfl (by decide) rfl (by decide)
    (by decide)

/-- C9 counterexample: a binding that reached Expired because the upstream
session disappeared (TTL unset) is re-validated by the next reconcile —
the edge client is called again and the phase leaves Expired for Bound. -/
theorem expired_phase_not_terminal :
    ((Reconcile envC9a).newBinding.map fun nb => nb.status.phase) = some (some Phase.Expired) ∧
    envC9b.binding = (Reconcile envC9a).newBinding ∧
    (Reconcile envC9b).edgeCalls =
      [.ensureSession ("sess-9"), .ensureRoute ("sess-9") ("10.0.0.5:8080")] ∧
    ((Reconcile envC9b).newBinding.map fun nb => nb.status.phase) = some (some Phase.Bound) ∧
    (some (some Phase.Bound) : Option (Option Phase)) ≠ some (some Phase.Expired) := by
  exact ⟨rfl, rfl, rfl, rfl, by decide⟩
